import Mathlib

/-
Verification of the SecurityCenter Alert API wrapper
(`tenable/sc/alerts.py`): a shallow embedding of the alert document
normalizer `AlertAPI._alert_creator` and of the CRUD wrapper methods
`list`, `details`, `create`, `update`, `delete`, `execute`, together
with theorems about the normalization behaviour.

Python values are embedded as the inductive `PyVal`; the keyword-option
mapping (a Python `dict` with string keys) is an ordered association
list `Options`.  Fallible Python code is embedded as `Except PyErr`.
-/

/-- Embedded Python values: the value shapes the alert code handles. -/
inductive PyVal where
  | str : String → PyVal
  | bool : Bool → PyVal
  | int : Int → PyVal
  | tuple : List PyVal → PyVal
  | dict : List (String × PyVal) → PyVal
  | list : List PyVal → PyVal

/-- The Python type tags the field validator compares against. -/
inductive PyType where
  | str
  | bool
  | int
  | tuple
  | dict
  | list
  deriving DecidableEq

/-- The runtime type of an embedded value (Python `type(v)`). -/
def typeOf : PyVal → PyType
  | .str _ => .str
  | .bool _ => .bool
  | .int _ => .int
  | .tuple _ => .tuple
  | .dict _ => .dict
  | .list _ => .list

/-- Exceptions the embedded code can raise.  `validationError` carries the
field name, the offending value and, for choice-constrained fields, the
allowed set; `nameError` is a reference to an undefined Python name;
`indexError` is an out-of-range sequence subscript. -/
inductive PyErr where
  | validationError (field : String) (value : PyVal) (choices : Option (List String))
  | nameError (name : String)
  | indexError
  | keyError (key : String)

/-- The keyword-option mapping: an insertion-ordered association list with
string keys, mirroring a Python `dict` used via `kw[k]`, `k in kw`,
`kw[k] = v` and `del kw[k]`. -/
abbrev Options := List (String × PyVal)

/-- `kw[k]` as an option: the value bound to the first occurrence of `k`. -/
def getKey : Options → String → Option PyVal
  | [], _ => none
  | (k', v) :: t, k => if k' = k then some v else getKey t k

/-- Python `k in kw`. -/
def hasKey (kw : Options) (k : String) : Bool :=
  (getKey kw k).isSome

/-- Python `kw[k] = v`: replace the binding in place when the key is
present, append a new binding otherwise. -/
def setKey : Options → String → PyVal → Options
  | [], k, v => [(k, v)]
  | (k', v') :: t, k, v => if k' = k then (k, v) :: t else (k', v') :: setKey t k v

/-- Python `del kw[k]`: drop every binding of `k`.  On the mappings Python
can build (keys unique) this is exactly dictionary deletion. -/
def delKey : Options → String → Options
  | [], _ => []
  | (k', v') :: t, k => if k' = k then delKey t k else (k', v') :: delKey t k

/-- Python `v == s` for a string literal `s`: true exactly when `v` is a
string with the same characters. -/
def valEqStr (v : PyVal) (s : String) : Bool :=
  match v with
  | .str t => t = s
  | _ => false

/-- Python `v in choices` for a list of string literals: membership under
Python equality, so a non-string value is never a member. -/
def strChoiceMem (v : PyVal) (cs : List String) : Bool :=
  match v with
  | .str s => cs.contains s
  | _ => false

/-- Modelled from the spec: the Field Validator collaborator
(`self._check` of `APIEndpoint`, defined in `tenable/base.py`, which is
not among the examined sources).  Per the spec it checks a value's
type and optional choice set and raises a validation failure naming the
field, the provided value and, for choice-constrained fields, the
allowed set; on success the validated value is returned. -/
def _check (field : String) (v : PyVal) (t : PyType) (choices : Option (List String)) :
    Except PyErr PyVal :=
  if typeOf v = t then
    match choices with
    | none => .ok v
    | some cs =>
      if strChoiceMem v cs then .ok v else .error (.validationError field v (some cs))
  else
    .error (.validationError field v none)

/-- Python `t[i]` on a tuple's element list: `IndexError` out of range. -/
def tupleGet (l : List PyVal) (i : Nat) : Except PyErr PyVal :=
  match l.get? i with
  | some v => .ok v
  | none => .error .indexError

/-- The element list of an embedded tuple (only applied after a `tuple`
type check has succeeded). -/
def tupleElems : PyVal → List PyVal
  | .tuple l => l
  | _ => []

/-- Lines 45–46: `if 'name' in kw: kw['name'] = self._check('name', kw['name'], str)`. -/
def stepName (kw : Options) : Except PyErr Options :=
  match getKey kw "name" with
  | none => .ok kw
  | some v => (_check "name" v .str none).map (fun v' => setKey kw "name" v')

/-- Lines 48–50: the identical treatment of `description`. -/
def stepDescription (kw : Options) : Except PyErr Options :=
  match getKey kw "description" with
  | none => .ok kw
  | some v => (_check "description" v .str none).map (fun v' => setKey kw "description" v')

/-- Lines 52–53: `if 'query' in kw: doc['query'] = self._check('query',
kw['query'], dict)`.  The right-hand side is evaluated first (so a
non-dict query raises the validation error), after which the assignment
target `doc` — a name never defined in `_alert_creator` — raises
`NameError`. -/
def stepQuery (kw : Options) : Except PyErr Options :=
  match getKey kw "query" with
  | none => .ok kw
  | some v => do
    let _ ← _check "query" v .dict none
    .error (.nameError "doc")

/-- Python `str(b).lower()` for a boolean: `str(True)` is `"True"` and
`str(False)` is `"False"`, so lower-casing yields `"true"`/`"false"`. -/
def pyBoolLower (b : Bool) : String :=
  if b then "true" else "false"

/-- Lines 55–61: `always_exec_on_trigger` is checked as a boolean, rendered
with `str(...).lower()` under the wire key `executeOnEveryTrigger`, and the
original key is deleted. -/
def stepAlwaysExec (kw : Options) : Except PyErr Options :=
  match getKey kw "always_exec_on_trigger" with
  | none => .ok kw
  | some v => do
    let v' ← _check "always_exec_on_trigger" v .bool none
    let rendered :=
      match v' with
      | .bool b => pyBoolLower b
      | _ => ""
    .ok (delKey (setKey kw "executeOnEveryTrigger" (.str rendered)) "always_exec_on_trigger")

/-- The trigger operator choice set of lines 71–72. -/
def triggerOps : List String := [">=", "<=", "=", "!="]

/-- Lines 63–75: the trigger tuple is checked to be a tuple, its first three
elements are checked (name: str; operator: str within `triggerOps`;
value: str) and stored under the three flat wire keys, and the original
`trigger` key is deleted.  Each subscript `kw['trigger'][i]` is evaluated
before the corresponding check, so a too-short tuple raises `IndexError`
at the first missing index. -/
def stepTrigger (kw : Options) : Except PyErr Options :=
  match getKey kw "trigger" with
  | none => .ok kw
  | some t => do
    let _ ← _check "trigger" t .tuple none
    let e0 ← tupleGet (tupleElems t) 0
    let n ← _check "triggerName" e0 .str none
    let kw := setKey kw "triggerName" n
    let e1 ← tupleGet (tupleElems t) 1
    let op ← _check "triggerOperator" e1 .str (some triggerOps)
    let kw := setKey kw "triggerOperator" op
    let e2 ← tupleGet (tupleElems t) 2
    let tv ← _check "triggerValue" e2 .str none
    let kw := setKey kw "triggerValue" tv
    .ok (delKey kw "trigger")

/-- The generic schedule-type choice set of lines 100–101. -/
def scheduleChoices : List String := ["dependent", "never", "rollover", "template"]

/-- Lines 77–102: when `schedule_type == 'ical'` and both `schedule_start`
and `schedule_repeat` are present, the three keys collapse into a nested
`schedule` document; otherwise any present `schedule_type` is validated
against `scheduleChoices` and collapses into `schedule = {type: v}`. -/
def stepSchedule (kw : Options) : Except PyErr Options :=
  match getKey kw "schedule_type" with
  | none => .ok kw
  | some st =>
    if valEqStr st "ical" && hasKey kw "schedule_start" && hasKey kw "schedule_repeat" then do
      let s ← _check "schedule_start" ((getKey kw "schedule_start").getD (.str "")) .str none
      let r ← _check "schedule_repeat" ((getKey kw "schedule_repeat").getD (.str "")) .str none
      let kw := setKey kw "schedule"
        (.dict [("type", .str "ical"), ("start", s), ("repeatRule", r)])
      .ok (delKey (delKey (delKey kw "schedule_type") "schedule_start") "schedule_repeat")
    else do
      let v ← _check "schedule_type" st .str (some scheduleChoices)
      .ok (delKey (setKey kw "schedule" (.dict [("type", v)])) "schedule_type")

/-- The keyword passes of lines 45–61 (name, description, query,
always_exec_on_trigger), in source order. -/
def preTrigger (kw : Options) : Except PyErr Options := do
  let kw1 ← stepName kw
  let kw2 ← stepDescription kw1
  let kw3 ← stepQuery kw2
  stepAlwaysExec kw3

/-- All keyword passes of lines 45–102, in source order. -/
def normSteps (kw : Options) : Except PyErr Options := do
  let kw4 ← preTrigger kw
  let kw5 ← stepTrigger kw4
  stepSchedule kw5

/-- One invocation of the Filter Query Builder collaborator
(`self._api.analysis._query_constructor(*filters, **kw)`): the positional
filters and the keyword mapping it receives. -/
structure BuilderCall where
  filters : List PyVal
  kwargs : Options

/-- Lines 35–40: the keyword mapping handed to the query builder —
`data_type` defaulted to `'vuln'` when absent, and `analysis_type` set to
the effective data type. -/
def builderKwargs (kw : Options) : Options :=
  let kwA := if hasKey kw "data_type" then kw else setKey kw "data_type" (.str "vuln")
  setKey kwA "analysis_type" ((getKey kwA "data_type").getD (.str "vuln"))

/-- `AlertAPI._alert_creator` (lines 29–106), instrumented with the list of
Filter Query Builder invocations it performs.  `qb` is the external
builder collaborator.  When positional filters are supplied, the
builder's result is stored under `query` and the `analysis_type` and
`data_type` keys are deleted (lines 41–43); then the keyword passes run. -/
def _alert_creator (qb : List PyVal → Options → PyVal) (filters : List PyVal) (kw : Options) :
    Except PyErr Options × List BuilderCall :=
  if filters.isEmpty then
    (normSteps kw, [])
  else
    let kwB := builderKwargs kw
    let kwC := delKey (delKey (setKey kwB "query" (qb filters kwB)) "analysis_type") "data_type"
    (normSteps kwC, [⟨filters, kwB⟩])

/-- An HTTP request handed to the transport collaborator.  A wrapper method
that fails validation returns an error instead of ever producing one. -/
structure Request where
  method : String
  path : String
  params : Options
  body : Option Options

/-- The integer payload of an embedded int (used after an `int` check). -/
def asInt : PyVal → Int
  | .int i => i
  | _ => 0

/-- The string payload of an embedded str (used after a `str` check). -/
def asStr : PyVal → String
  | .str s => s
  | _ => ""

/-- Lines 127–129 / 150–152: the optional `fields` parameter — when the
list is truthy, each field is checked as text and the values are
comma-joined under the `fields` query parameter. -/
def fieldsParams : Option (List PyVal) → Except PyErr Options
  | none => .ok []
  | some fs =>
    if fs.isEmpty then .ok []
    else
      (fs.mapM (fun f => _check "field" f .str none)).map
        (fun cs => [("fields", PyVal.str (String.intercalate "," (cs.map asStr)))])

/-- `response['response']`: subscripting the decoded JSON reply. -/
def getItem (v : PyVal) (k : String) : Except PyErr PyVal :=
  match v with
  | .dict d =>
    match getKey d k with
    | some r => .ok r
    | none => .error (.keyError k)
  | _ => .error (.keyError k)

namespace AlertAPI

/-- `AlertAPI.list` (lines 110–131), parameterized by the transport
collaborator: builds the collection GET request and returns the
`response` member of the decoded JSON reply. -/
def list (transport : Request → PyVal) (fields : Option (List PyVal)) : Except PyErr PyVal := do
  let params ← fieldsParams fields
  getItem (transport ⟨"GET", "alert", params, none⟩) "response"

/-- `AlertAPI.details` (lines 133–155): the GET request it would send.
The `fields` parameter is processed first, then the id is checked as an
integer while the path is interpolated. -/
def details (id : PyVal) (fields : Option (List PyVal)) : Except PyErr Request := do
  let params ← fieldsParams fields
  let i ← _check "id" id .int none
  .ok ⟨"GET", "alert/" ++ toString (asInt i), params, none⟩

/-- `AlertAPI.create` (lines 157–266): normalizes and POSTs the payload. -/
def create (qb : List PyVal → Options → PyVal) (filters : List PyVal) (kw : Options) :
    Except PyErr Request := do
  let payload ← (_alert_creator qb filters kw).1
  .ok ⟨"POST", "alert", [], some payload⟩

/-- `AlertAPI.update` (lines 268–321): the payload is normalized first
(line 319), then the id is checked as an integer while the path is
interpolated (lines 320–321). -/
def update (qb : List PyVal → Options → PyVal) (id : PyVal) (filters : List PyVal)
    (kw : Options) : Except PyErr Request := do
  let payload ← (_alert_creator qb filters kw).1
  let i ← _check "id" id .int none
  .ok ⟨"PATCH", "alert/" ++ toString (asInt i), [], some payload⟩

/-- `AlertAPI.delete` (lines 323–339). -/
def delete (id : PyVal) : Except PyErr Request := do
  let i ← _check "id" id .int none
  .ok ⟨"DELETE", "alert/" ++ toString (asInt i), [], none⟩

/-- `AlertAPI.execute` (lines 341–354). -/
def execute (id : PyVal) : Except PyErr Request := do
  let i ← _check "id" id .int none
  .ok ⟨"POST", "alert/" ++ toString (asInt i) ++ "/execute", [], none⟩

end AlertAPI

/-- A trivial Filter Query Builder used to instantiate concrete runs: it
returns an (empty) structured query object, as the real builder returns a
dict. -/
def qb0 : List PyVal → Options → PyVal := fun _ _ => PyVal.dict []

/-- The option keys the normalizer reads or consumes together with the
wire keys it writes: every key outside this set is passed through a
successful normalization unchanged. -/
def normalizerKeys : List String :=
  ["data_type", "name", "description", "query", "always_exec_on_trigger", "trigger",
   "schedule_type", "schedule_start", "schedule_repeat",
   "analysis_type", "executeOnEveryTrigger", "triggerName", "triggerOperator",
   "triggerValue", "schedule"]

/-- A trivial transport collaborator used to instantiate concrete runs:
every request is answered with `{"response": []}`. -/
def transport0 : Request → PyVal := fun _ => PyVal.dict [("response", PyVal.list [])]

/-! ### Basic facts about the option-mapping operations -/

theorem getKey_setKey_self (kw : Options) (k : String) (v : PyVal) :
    getKey (setKey kw k v) k = some v := by
  induction kw with
  | nil => simp [setKey, getKey]
  | cons p t ih =>
    obtain ⟨k', v'⟩ := p
    by_cases h : k' = k
    · simp [setKey, h, getKey]
    · simp [setKey, h, getKey, ih]

theorem getKey_setKey_ne (kw : Options) {k k' : String} (v : PyVal) (h : k' ≠ k) :
    getKey (setKey kw k v) k' = getKey kw k' := by
  induction kw with
  | nil => simp [setKey, getKey, Ne.symm h]
  | cons p t ih =>
    obtain ⟨k'', v''⟩ := p
    by_cases hk : k'' = k
    · subst hk
      simp [setKey, getKey, Ne.symm h]
    · simp only [setKey, if_neg hk, getKey]
      by_cases hk' : k'' = k'
      · simp [hk']
      · simp [hk', ih]

theorem getKey_delKey_self (kw : Options) (k : String) :
    getKey (delKey kw k) k = none := by
  induction kw with
  | nil => simp [delKey, getKey]
  | cons p t ih =>
    obtain ⟨k', v'⟩ := p
    by_cases h : k' = k
    · simp [delKey, h, ih]
    · simp [delKey, h, getKey, ih]

theorem getKey_delKey_ne (kw : Options) {k k' : String} (h : k' ≠ k) :
    getKey (delKey kw k) k' = getKey kw k' := by
  induction kw with
  | nil => simp [delKey]
  | cons p t ih =>
    obtain ⟨k'', v''⟩ := p
    by_cases hk : k'' = k
    · subst hk
      simp [delKey, getKey, Ne.symm h, ih]
    · simp only [delKey, if_neg hk, getKey]
      by_cases hk' : k'' = k'
      · simp [hk']
      · simp [hk', ih]

/-! ### Reduction helpers for `Except` -/

theorem bindOk {α β : Type} (a : α) (f : α → Except PyErr β) :
    (Except.ok a >>= f) = f a := rfl

theorem bindErr {α β : Type} (e : PyErr) (f : α → Except PyErr β) :
    ((Except.error e : Except PyErr α) >>= f) = (Except.error e : Except PyErr β) := rfl

theorem mapOk {α β : Type} (a : α) (f : α → β) :
    (Except.ok a : Except PyErr α).map f = Except.ok (f a) := rfl

theorem mapErr {α β : Type} (e : PyErr) (f : α → β) :
    (Except.error e : Except PyErr α).map f = (Except.error e : Except PyErr β) := rfl

/-! ### Facts about the field validator -/

theorem check_pass {fld : String} {v : PyVal} {t : PyType} (h : typeOf v = t) :
    _check fld v t none = .ok v := by
  simp [_check, h]

theorem check_pass_choice {fld : String} {v : PyVal} {t : PyType} {l : List String}
    (h : typeOf v = t) (hm : strChoiceMem v l = true) :
    _check fld v t (some l) = .ok v := by
  simp [_check, h, hm]

theorem check_type_error {fld : String} {v : PyVal} {t : PyType} {cs : Option (List String)}
    (h : typeOf v ≠ t) :
    _check fld v t cs = .error (.validationError fld v none) := by
  simp [_check, h]

theorem check_choice_error {fld : String} {v : PyVal} {t : PyType} {l : List String}
    (h : typeOf v = t) (hm : strChoiceMem v l = false) :
    _check fld v t (some l) = .error (.validationError fld v (some l)) := by
  simp [_check, h, hm]

theorem check_ok {fld : String} {v w : PyVal} {t : PyType} {cs : Option (List String)}
    (h : _check fld v t cs = .ok w) : w = v ∧ typeOf v = t := by
  by_cases ht : typeOf v = t
  · refine ⟨?_, ht⟩
    cases cs with
    | none =>
      rw [check_pass ht] at h
      exact (Except.ok.inj h).symm
    | some l =>
      by_cases hm : strChoiceMem v l
      · rw [check_pass_choice ht hm] at h
        exact (Except.ok.inj h).symm
      · rw [check_choice_error ht (by simpa using hm)] at h
        exact absurd h (by simp)
  · rw [check_type_error ht] at h
    exact absurd h (by simp)

theorem check_ok_choice {fld : String} {v w : PyVal} {t : PyType} {l : List String}
    (h : _check fld v t (some l) = .ok w) : strChoiceMem v l = true := by
  have ht := (check_ok h).2
  by_cases hm : strChoiceMem v l
  · exact hm
  · rw [check_choice_error ht (by simpa using hm)] at h
    exact absurd h (by simp)

/-! ### Per-pass lemmas: what each keyword pass writes, deletes and checks -/

theorem stepName_frame {kw kw' : Options} (h : stepName kw = .ok kw') {k : String}
    (hk : k ≠ "name") : getKey kw' k = getKey kw k := by
  cases hq : getKey kw "name" with
  | none =>
    simp only [stepName, hq] at h
    cases h
    rfl
  | some v =>
    simp only [stepName, hq] at h
    cases hc : _check "name" v .str none with
    | error e =>
      rw [hc, mapErr] at h
      exact absurd h (by simp)
    | ok w =>
      rw [hc, mapOk] at h
      cases h
      exact getKey_setKey_ne kw w hk

theorem stepDescription_frame {kw kw' : Options} (h : stepDescription kw = .ok kw')
    {k : String} (hk : k ≠ "description") : getKey kw' k = getKey kw k := by
  cases hq : getKey kw "description" with
  | none =>
    simp only [stepDescription, hq] at h
    cases h
    rfl
  | some v =>
    simp only [stepDescription, hq] at h
    cases hc : _check "description" v .str none with
    | error e =>
      rw [hc, mapErr] at h
      exact absurd h (by simp)
    | ok w =>
      rw [hc, mapOk] at h
      cases h
      exact getKey_setKey_ne kw w hk

/-- The `query` pass can only succeed when no `query` key is present, and
then it changes nothing: when the key is present, the line-53 assignment
to the undefined name `doc` makes success impossible. -/
theorem stepQuery_ok {kw kw' : Options} (h : stepQuery kw = .ok kw') :
    kw' = kw ∧ getKey kw "query" = none := by
  cases hq : getKey kw "query" with
  | none =>
    simp only [stepQuery, hq] at h
    cases h
    exact ⟨rfl, rfl⟩
  | some v =>
    simp only [stepQuery, hq] at h
    cases hc : _check "query" v .dict none with
    | error e =>
      rw [hc, bindErr] at h
      exact absurd h (by simp)
    | ok w =>
      rw [hc, bindOk] at h
      exact absurd h (by simp)

theorem stepAlwaysExec_frame {kw kw' : Options} (h : stepAlwaysExec kw = .ok kw')
    {k : String} (hk1 : k ≠ "always_exec_on_trigger") (hk2 : k ≠ "executeOnEveryTrigger") :
    getKey kw' k = getKey kw k := by
  cases hq : getKey kw "always_exec_on_trigger" with
  | none =>
    simp only [stepAlwaysExec, hq] at h
    cases h
    rfl
  | some v =>
    simp only [stepAlwaysExec, hq] at h
    cases hc : _check "always_exec_on_trigger" v .bool none with
    | error e =>
      rw [hc, bindErr] at h
      exact absurd h (by simp)
    | ok w =>
      simp only [hc, bindOk] at h
      cases h
      rw [getKey_delKey_ne _ hk1, getKey_setKey_ne _ _ hk2]

/-- Success of the `always_exec_on_trigger` pass with the key present:
the value was a boolean, the original key is gone and the wire key holds
`str(b).lower()`. -/
theorem stepAlwaysExec_ok {kw kw' : Options} {v : PyVal}
    (h : stepAlwaysExec kw = .ok kw') (hq : getKey kw "always_exec_on_trigger" = some v) :
    ∃ b, v = .bool b ∧
      getKey kw' "always_exec_on_trigger" = none ∧
      getKey kw' "executeOnEveryTrigger" = some (.str (pyBoolLower b)) := by
  simp only [stepAlwaysExec, hq] at h
  cases hc : _check "always_exec_on_trigger" v .bool none with
  | error e =>
    rw [hc, bindErr] at h
    exact absurd h (by simp)
  | ok w =>
    obtain ⟨hw, ht⟩ := check_ok hc
    cases v with
    | bool b =>
      subst hw
      simp only [hc, bindOk] at h
      cases h
      exact ⟨b, rfl, getKey_delKey_self _ _, by
        rw [getKey_delKey_ne _ (by decide), getKey_setKey_self]⟩
    | str s => exact absurd ht (by simp [typeOf])
    | int i => exact absurd ht (by simp [typeOf])
    | tuple l => exact absurd ht (by simp [typeOf])
    | dict d => exact absurd ht (by simp [typeOf])
    | list l => exact absurd ht (by simp [typeOf])

theorem stepTrigger_frame {kw kw' : Options} (h : stepTrigger kw = .ok kw') {k : String}
    (h1 : k ≠ "trigger") (h2 : k ≠ "triggerName") (h3 : k ≠ "triggerOperator")
    (h4 : k ≠ "triggerValue") : getKey kw' k = getKey kw k := by
  cases hq : getKey kw "trigger" with
  | none =>
    simp only [stepTrigger, hq] at h
    cases h
    rfl
  | some t =>
    simp only [stepTrigger, hq] at h
    cases hc : _check "trigger" t .tuple none with
    | error e =>
      rw [hc, bindErr] at h
      exact absurd h (by simp)
    | ok w =>
      simp only [hc, bindOk] at h
      cases he0 : tupleGet (tupleElems t) 0 with
      | error e =>
        rw [he0, bindErr] at h
        exact absurd h (by simp)
      | ok e0 =>
        simp only [he0, bindOk] at h
        cases hn : _check "triggerName" e0 .str none with
        | error e =>
          rw [hn, bindErr] at h
          exact absurd h (by simp)
        | ok n =>
          simp only [hn, bindOk] at h
          cases he1 : tupleGet (tupleElems t) 1 with
          | error e =>
            rw [he1, bindErr] at h
            exact absurd h (by simp)
          | ok e1 =>
            simp only [he1, bindOk] at h
            cases ho : _check "triggerOperator" e1 .str (some triggerOps) with
            | error e =>
              rw [ho, bindErr] at h
              exact absurd h (by simp)
            | ok op =>
              simp only [ho, bindOk] at h
              cases he2 : tupleGet (tupleElems t) 2 with
              | error e =>
                rw [he2, bindErr] at h
                exact absurd h (by simp)
              | ok e2 =>
                simp only [he2, bindOk] at h
                cases hv : _check "triggerValue" e2 .str none with
                | error e =>
                  rw [hv, bindErr] at h
                  exact absurd h (by simp)
                | ok tv =>
                  simp only [hv, bindOk] at h
                  cases h
                  rw [getKey_delKey_ne _ h1, getKey_setKey_ne _ _ h4,
                    getKey_setKey_ne _ _ h3, getKey_setKey_ne _ _ h2]

/-- A non-tuple `trigger` value fails the tuple check with the
validation error for the `trigger` field. -/
theorem stepTrigger_nontuple {kw : Options} {v : PyVal}
    (hq : getKey kw "trigger" = some v) (ht : typeOf v ≠ .tuple) :
    stepTrigger kw = .error (.validationError "trigger" v none) := by
  simp only [stepTrigger, hq, check_type_error ht, bindErr]

/-- A trigger tuple whose first three elements are text, with an operator
from the allowed set, is expanded into the three flat wire keys; any
further elements are never read. -/
theorem stepTrigger_full {kw : Options} {n o v : String} {extra : List PyVal}
    (hq : getKey kw "trigger" = some (.tuple (.str n :: .str o :: .str v :: extra)))
    (ho : o ∈ triggerOps) :
    stepTrigger kw = .ok (delKey (setKey (setKey (setKey kw "triggerName" (.str n))
      "triggerOperator" (.str o)) "triggerValue" (.str v)) "trigger") := by
  have hoe : o = ">=" ∨ o = "<=" ∨ o = "=" ∨ o = "!=" := by
    simpa [triggerOps] using ho
  have hmem : strChoiceMem (.str o) triggerOps = true := by
    rcases hoe with rfl | rfl | rfl | rfl <;> decide
  have hA := @check_pass "trigger" (PyVal.tuple (.str n :: .str o :: .str v :: extra))
    PyType.tuple rfl
  have hN := @check_pass "triggerName" (PyVal.str n) PyType.str rfl
  have hO := @check_pass_choice "triggerOperator" (PyVal.str o) PyType.str triggerOps rfl hmem
  have hV := @check_pass "triggerValue" (PyVal.str v) PyType.str rfl
  have hg0 : tupleGet (tupleElems (PyVal.tuple (.str n :: .str o :: .str v :: extra))) 0 =
      .ok (PyVal.str n) := rfl
  have hg1 : tupleGet (tupleElems (PyVal.tuple (.str n :: .str o :: .str v :: extra))) 1 =
      .ok (PyVal.str o) := rfl
  have hg2 : tupleGet (tupleElems (PyVal.tuple (.str n :: .str o :: .str v :: extra))) 2 =
      .ok (PyVal.str v) := rfl
  simp only [stepTrigger, hq, hA, bindOk, hg0, hg1, hg2, hN, hO, hV]

theorem stepSchedule_frame {kw kw' : Options} (h : stepSchedule kw = .ok kw') {k : String}
    (h1 : k ≠ "schedule_type") (h2 : k ≠ "schedule_start") (h3 : k ≠ "schedule_repeat")
    (h4 : k ≠ "schedule") : getKey kw' k = getKey kw k := by
  cases hq : getKey kw "schedule_type" with
  | none =>
    simp only [stepSchedule, hq] at h
    cases h
    rfl
  | some st =>
    simp only [stepSchedule, hq] at h
    by_cases hcond :
        (valEqStr st "ical" && hasKey kw "schedule_start" && hasKey kw "schedule_repeat") = true
    · rw [if_pos hcond] at h
      cases hs : _check "schedule_start" ((getKey kw "schedule_start").getD (.str "")) .str none with
      | error e =>
        rw [hs, bindErr] at h
        exact absurd h (by simp)
      | ok s =>
        simp only [hs, bindOk] at h
        cases hr : _check "schedule_repeat" ((getKey kw "schedule_repeat").getD (.str "")) .str none with
        | error e =>
          rw [hr, bindErr] at h
          exact absurd h (by simp)
        | ok r =>
          simp only [hr, bindOk] at h
          cases h
          rw [getKey_delKey_ne _ h3, getKey_delKey_ne _ h2, getKey_delKey_ne _ h1,
            getKey_setKey_ne _ _ h4]
    · rw [if_neg hcond] at h
      cases hv : _check "schedule_type" st .str (some scheduleChoices) with
      | error e =>
        rw [hv, bindErr] at h
        exact absurd h (by simp)
      | ok w =>
        simp only [hv, bindOk] at h
        cases h
        rw [getKey_delKey_ne _ h1, getKey_setKey_ne _ _ h4]

/-- The complete-ical branch: with `schedule_type = 'ical'` and both
`schedule_start` and `schedule_repeat` present, success collapses the
three keys into the nested `schedule` document and removes all three. -/
theorem stepSchedule_ical {kw kw' : Options} {s r : PyVal}
    (hq : getKey kw "schedule_type" = some (.str "ical"))
    (hs : getKey kw "schedule_start" = some s)
    (hr : getKey kw "schedule_repeat" = some r)
    (h : stepSchedule kw = .ok kw') :
    getKey kw' "schedule" =
      some (.dict [("type", .str "ical"), ("start", s), ("repeatRule", r)]) ∧
    getKey kw' "schedule_type" = none ∧
    getKey kw' "schedule_start" = none ∧
    getKey kw' "schedule_repeat" = none := by
  have hcond :
      (valEqStr (PyVal.str "ical") "ical" && hasKey kw "schedule_start"
        && hasKey kw "schedule_repeat") = true := by
    simp [valEqStr, hasKey, hs, hr]
  simp only [stepSchedule, hq] at h
  rw [if_pos hcond] at h
  simp only [hs, hr, Option.getD_some] at h
  cases hcs : _check "schedule_start" s .str none with
  | error e =>
    rw [hcs, bindErr] at h
    exact absurd h (by simp)
  | ok w1 =>
    obtain ⟨hw1, _⟩ := check_ok hcs
    subst hw1
    simp only [hcs, bindOk] at h
    cases hcr : _check "schedule_repeat" r .str none with
    | error e =>
      rw [hcr, bindErr] at h
      exact absurd h (by simp)
    | ok w2 =>
      obtain ⟨hw2, _⟩ := check_ok hcr
      subst hw2
      simp only [hcr, bindOk] at h
      cases h
      refine ⟨?_, ?_, ?_, ?_⟩
      · rw [getKey_delKey_ne _ (by decide), getKey_delKey_ne _ (by decide),
          getKey_delKey_ne _ (by decide), getKey_setKey_self]
      · rw [getKey_delKey_ne _ (by decide), getKey_delKey_ne _ (by decide),
          getKey_delKey_self]
      · rw [getKey_delKey_ne _ (by decide), getKey_delKey_self]
      · rw [getKey_delKey_self]

/-- The generic schedule branch rejects a schedule type outside
`scheduleChoices`, naming the allowed set. -/
theorem stepSchedule_generic_error {kw : Options} {st : PyVal}
    (hq : getKey kw "schedule_type" = some st)
    (hcond : (valEqStr st "ical" && hasKey kw "schedule_start"
      && hasKey kw "schedule_repeat") = false)
    (htype : typeOf st = .str)
    (hmem : strChoiceMem st scheduleChoices = false) :
    stepSchedule kw = .error (.validationError "schedule_type" st (some scheduleChoices)) := by
  simp only [stepSchedule, hq]
  rw [if_neg (by simp [hcond])]
  rw [check_choice_error htype hmem, bindErr]

/-- The generic schedule branch on success: the (non-ical) schedule type
collapses into `schedule = {type: v}` and the original key is removed. -/
theorem stepSchedule_generic_ok {kw kw' : Options} {st : PyVal}
    (hq : getKey kw "schedule_type" = some st)
    (hical : valEqStr st "ical" = false)
    (h : stepSchedule kw = .ok kw') :
    getKey kw' "schedule" = some (.dict [("type", st)]) ∧
    getKey kw' "schedule_type" = none := by
  simp only [stepSchedule, hq] at h
  rw [if_neg (by simp [hical])] at h
  cases hv : _check "schedule_type" st .str (some scheduleChoices) with
  | error e =>
    rw [hv, bindErr] at h
    exact absurd h (by simp)
  | ok w =>
    obtain ⟨hw, _⟩ := check_ok hv
    subst hw
    simp only [hv, bindOk] at h
    cases h
    exact ⟨by rw [getKey_delKey_ne _ (by decide), getKey_setKey_self], getKey_delKey_self _ _⟩

/-! ### Composing the passes -/

theorem preTrigger_ok_decomp {kw out : Options} (h : preTrigger kw = .ok out) :
    ∃ kw1 kw2, stepName kw = .ok kw1 ∧ stepDescription kw1 = .ok kw2 ∧
      getKey kw2 "query" = none ∧ stepAlwaysExec kw2 = .ok out := by
  unfold preTrigger at h
  cases hA : stepName kw with
  | error e =>
    rw [hA, bindErr] at h
    exact absurd h (by simp)
  | ok kw1 =>
    simp only [hA, bindOk] at h
    cases hB : stepDescription kw1 with
    | error e =>
      rw [hB, bindErr] at h
      exact absurd h (by simp)
    | ok kw2 =>
      simp only [hB, bindOk] at h
      cases hC : stepQuery kw2 with
      | error e =>
        rw [hC, bindErr] at h
        exact absurd h (by simp)
      | ok kw3 =>
        obtain ⟨hkw, hq⟩ := stepQuery_ok hC
        simp only [hC, bindOk] at h
        rw [hkw] at h
        exact ⟨kw1, kw2, rfl, hB, hq, h⟩

theorem preTrigger_frame {kw out : Options} (h : preTrigger kw = .ok out) {k : String}
    (h1 : k ≠ "name") (h2 : k ≠ "description") (h3 : k ≠ "always_exec_on_trigger")
    (h4 : k ≠ "executeOnEveryTrigger") : getKey out k = getKey kw k := by
  obtain ⟨kw1, kw2, hA, hB, _, hC⟩ := preTrigger_ok_decomp h
  rw [stepAlwaysExec_frame hC h3 h4, stepDescription_frame hB h2, stepName_frame hA h1]

theorem normSteps_ok_decomp {kw out : Options} (h : normSteps kw = .ok out) :
    ∃ kw4 kw5, preTrigger kw = .ok kw4 ∧ stepTrigger kw4 = .ok kw5 ∧
      stepSchedule kw5 = .ok out := by
  unfold normSteps at h
  cases hP : preTrigger kw with
  | error e =>
    rw [hP, bindErr] at h
    exact absurd h (by simp)
  | ok kw4 =>
    simp only [hP, bindOk] at h
    cases hT : stepTrigger kw4 with
    | error e =>
      rw [hT, bindErr] at h
      exact absurd h (by simp)
    | ok kw5 =>
      simp only [hT, bindOk] at h
      exact ⟨kw4, kw5, rfl, hT, h⟩

/-- Keys the normalizer's keyword passes never read, write or delete are
carried through a successful run unchanged. -/
theorem normSteps_frame {kw out : Options} (h : normSteps kw = .ok out) {k : String}
    (h1 : k ≠ "name") (h2 : k ≠ "description") (h3 : k ≠ "always_exec_on_trigger")
    (h4 : k ≠ "executeOnEveryTrigger") (h5 : k ≠ "trigger") (h6 : k ≠ "triggerName")
    (h7 : k ≠ "triggerOperator") (h8 : k ≠ "triggerValue") (h9 : k ≠ "schedule_type")
    (h10 : k ≠ "schedule_start") (h11 : k ≠ "schedule_repeat") (h12 : k ≠ "schedule") :
    getKey out k = getKey kw k := by
  obtain ⟨kw4, kw5, hP, hT, hS⟩ := normSteps_ok_decomp h
  rw [stepSchedule_frame hS h9 h10 h11 h12, stepTrigger_frame hT h5 h6 h7 h8,
    preTrigger_frame hP h1 h2 h3 h4]

/-- A successful run of the keyword passes implies no `query` key was
present in the input: with a `query` key, line 53 makes every run fail. -/
theorem normSteps_ok_no_query {kw out : Options} (h : normSteps kw = .ok out) :
    getKey kw "query" = none := by
  obtain ⟨kw4, _, hP, _, _⟩ := normSteps_ok_decomp h
  obtain ⟨kw1, kw2, hA, hB, hq, _⟩ := preTrigger_ok_decomp hP
  rw [← stepName_frame hA (by decide), ← stepDescription_frame hB (by decide)]
  exact hq

theorem alert_creator_nil (qb : List PyVal → Options → PyVal) (kw : Options) :
    _alert_creator qb [] kw = (normSteps kw, []) := rfl

/-- A successful normalization is only possible with no positional
filters: any supplied filter expression puts a `query` key into the
mapping, on which the keyword passes fail at line 53. -/
theorem alert_creator_ok {qb : List PyVal → Options → PyVal} {filters : List PyVal}
    {kw out : Options} (h : (_alert_creator qb filters kw).1 = .ok out) :
    filters = [] ∧ normSteps kw = .ok out := by
  cases filters with
  | nil => exact ⟨rfl, h⟩
  | cons f fs =>
    exfalso
    simp only [_alert_creator, List.isEmpty_cons, Bool.false_eq_true, if_false] at h
    have hq := normSteps_ok_no_query h
    rw [getKey_delKey_ne _ (by decide), getKey_delKey_ne _ (by decide),
      getKey_setKey_self] at hq
    exact Option.noConfusion hq

/-! ### The claims -/

/-- C1: the claim states that whenever the options mapping contains a
`query` key, the value is type-checked as a dict and the output mapping
contains it under `query`.  The type check does happen (second conjunct),
but no output mapping ever results: line 53 assigns the checked value to
`doc`, a name that is never defined in `_alert_creator`, so every call
with a `query` key raises `NameError` instead of returning the document.
This theorem evaluates the normalizer at the failing input
`kw = {'query': {}}` (and at a non-dict query, showing the check fires
first). -/
theorem C1_query_nameError :
    (_alert_creator qb0 [] [("query", PyVal.dict [])]).1 = .error (.nameError "doc") ∧
    (_alert_creator qb0 [] [("query", PyVal.str "x")]).1 =
      .error (.validationError "query" (PyVal.str "x") none) :=
  ⟨rfl, rfl⟩

/-- C2 (counterexample): the claim says every `trigger` value that is not
a 3-element tuple fails with a ValidationError.  The code only checks
tuple-ness and then subscripts the first three indices, so the 2-element
tuple `('a', '>=')` — not a 3-element tuple — fails with `IndexError`
when index 2 is read, not with a ValidationError. -/
theorem C2_counterexample :
    (_alert_creator qb0 [] [("trigger", PyVal.tuple [PyVal.str "a", PyVal.str ">="])]).1 =
      .error .indexError :=
  rfl

/-- C2 (amended): when the options mapping contains a `trigger` key whose
value is not a tuple at all, and the keyword passes before the trigger
pass succeed (in particular no `query` key is present), and no filter
expressions are supplied, normalization fails with the ValidationError
for the `trigger` field; no Filter Query Builder invocation occurs and
no transport request is produced. -/
theorem C2_nontuple_trigger {qb : List PyVal → Options → PyVal} {kw kw4 : Options} {v : PyVal}
    (hP : preTrigger kw = .ok kw4)
    (hq : getKey kw "trigger" = some v)
    (ht : typeOf v ≠ .tuple) :
    (_alert_creator qb [] kw).1 = .error (.validationError "trigger" v none) ∧
    (_alert_creator qb [] kw).2 = [] ∧
    AlertAPI.create qb [] kw = .error (.validationError "trigger" v none) := by
  have hq4 : getKey kw4 "trigger" = some v := by
    rw [preTrigger_frame hP (by decide) (by decide) (by decide) (by decide)]
    exact hq
  have hT := stepTrigger_nontuple hq4 ht
  have hns : normSteps kw = .error (.validationError "trigger" v none) := by
    unfold normSteps
    rw [hP, bindOk, hT, bindErr]
  refine ⟨?_, rfl, ?_⟩
  · rw [alert_creator_nil]
    exact hns
  · simp only [AlertAPI.create, alert_creator_nil, hns, bindErr]

theorem C2_witness :
    preTrigger [("trigger", PyVal.str "x")] = .ok [("trigger", PyVal.str "x")] ∧
    (_alert_creator qb0 [] [("trigger", PyVal.str "x")]).1 =
      .error (.validationError "trigger" (PyVal.str "x") none) :=
  ⟨rfl, (C2_nontuple_trigger
    (show preTrigger [("trigger", PyVal.str "x")] = .ok [("trigger", PyVal.str "x")] from rfl)
    rfl (by decide)).1⟩

/-- C6: the claim is right about the intended behaviour — with filter
expressions and no `data_type`, the Filter Query Builder is invoked with
`data_type = 'vuln'` (visible in the recorded builder call) — but the
code then stores the builder's result under `query` and crashes at line
53 (`doc` is undefined), so no output mapping with `data_type` removed is
ever produced.  Evaluation at the failing input
`create(('severity', '=', '3,4'))`. -/
theorem C6_filters_nameError :
    _alert_creator qb0 [PyVal.tuple [PyVal.str "severity", PyVal.str "=", PyVal.str "3,4"]] [] =
      (.error (.nameError "doc"),
        [⟨[PyVal.tuple [PyVal.str "severity", PyVal.str "=", PyVal.str "3,4"]],
          [("data_type", PyVal.str "vuln"), ("analysis_type", PyVal.str "vuln")]⟩]) :=
  rfl

/-- C3 (amended): when the keyword passes before the schedule pass succeed, a
`schedule_type` of `'ical'` with `schedule_start` or `schedule_repeat`
missing falls into the generic schedule branch and fails its choice
check — which excludes `ical` — with a ValidationError naming the
allowed set `{dependent, never, rollover, template}`; a `schedule_type`
of `'bogus'` fails the same check naming the same set. -/
theorem C3_schedule_validation {qb : List PyVal → Options → PyVal} {kw kw4 kw5 : Options}
    (hP : preTrigger kw = .ok kw4) (hT : stepTrigger kw4 = .ok kw5) :
    (getKey kw "schedule_type" = some (.str "ical") →
      (hasKey kw "schedule_start" = false ∨ hasKey kw "schedule_repeat" = false) →
      (_alert_creator qb [] kw).1 =
        .error (.validationError "schedule_type" (.str "ical") (some scheduleChoices))) ∧
    (getKey kw "schedule_type" = some (.str "bogus") →
      (_alert_creator qb [] kw).1 =
        .error (.validationError "schedule_type" (.str "bogus") (some scheduleChoices))) := by
  have e1 : getKey kw5 "schedule_type" = getKey kw "schedule_type" := by
    rw [stepTrigger_frame hT (by decide) (by decide) (by decide) (by decide),
      preTrigger_frame hP (by decide) (by decide) (by decide) (by decide)]
  have e2 : getKey kw5 "schedule_start" = getKey kw "schedule_start" := by
    rw [stepTrigger_frame hT (by decide) (by decide) (by decide) (by decide),
      preTrigger_frame hP (by decide) (by decide) (by decide) (by decide)]
  have e3 : getKey kw5 "schedule_repeat" = getKey kw "schedule_repeat" := by
    rw [stepTrigger_frame hT (by decide) (by decide) (by decide) (by decide),
      preTrigger_frame hP (by decide) (by decide) (by decide) (by decide)]
  constructor
  · intro hty hmiss
    have hcond : (valEqStr (PyVal.str "ical") "ical" && hasKey kw5 "schedule_start"
        && hasKey kw5 "schedule_repeat") = false := by
      rcases hmiss with hm | hm
      · have : hasKey kw5 "schedule_start" = false := by
          unfold hasKey at hm ⊢
          rw [e2]
          exact hm
        simp [this]
      · have : hasKey kw5 "schedule_repeat" = false := by
          unfold hasKey at hm ⊢
          rw [e3]
          exact hm
        simp [this]
    have hS := stepSchedule_generic_error (e1.trans hty) hcond rfl (by decide)
    have hns : normSteps kw =
        .error (.validationError "schedule_type" (.str "ical") (some scheduleChoices)) := by
      unfold normSteps
      rw [hP, bindOk, hT, bindOk, hS]
    rw [alert_creator_nil]
    exact hns
  · intro hty
    have hcond : (valEqStr (PyVal.str "bogus") "ical" && hasKey kw5 "schedule_start"
        && hasKey kw5 "schedule_repeat") = false := by
      simp [valEqStr]
    have hS := stepSchedule_generic_error (e1.trans hty) hcond rfl (by decide)
    have hns : normSteps kw =
        .error (.validationError "schedule_type" (.str "bogus") (some scheduleChoices)) := by
      unfold normSteps
      rw [hP, bindOk, hT, bindOk, hS]
    rw [alert_creator_nil]
    exact hns

theorem C3_witness :
    preTrigger [("schedule_type", PyVal.str "ical")] = .ok [("schedule_type", PyVal.str "ical")] ∧
    stepTrigger [("schedule_type", PyVal.str "ical")] = .ok [("schedule_type", PyVal.str "ical")] ∧
    (_alert_creator qb0 [] [("schedule_type", PyVal.str "ical")]).1 =
      .error (.validationError "schedule_type" (PyVal.str "ical") (some scheduleChoices)) :=
  ⟨rfl, rfl,
    (C3_schedule_validation
      (show preTrigger [("schedule_type", PyVal.str "ical")] =
        .ok [("schedule_type", PyVal.str "ical")] from rfl)
      (show stepTrigger [("schedule_type", PyVal.str "ical")] =
        .ok [("schedule_type", PyVal.str "ical")] from rfl)).1 rfl (Or.inl rfl)⟩

/-- C4: on every successful normalization, a `schedule_type` of `'ical'`
with both `schedule_start` and `schedule_repeat` present yields the
nested `schedule = {type: 'ical', start: <start>, repeatRule: <repeat>}`
in the output with all three flattened keys removed; a non-ical
`schedule_type` yields `schedule = {type: <value>}` with `schedule_type`
removed. -/
theorem C4_schedule_output {qb : List PyVal → Options → PyVal} {filters : List PyVal}
    {kw out : Options} (h : (_alert_creator qb filters kw).1 = .ok out) :
    (∀ s r, getKey kw "schedule_type" = some (.str "ical") →
      getKey kw "schedule_start" = some s → getKey kw "schedule_repeat" = some r →
      getKey out "schedule" =
        some (.dict [("type", .str "ical"), ("start", s), ("repeatRule", r)]) ∧
      getKey out "schedule_type" = none ∧
      getKey out "schedule_start" = none ∧
      getKey out "schedule_repeat" = none) ∧
    (∀ v, getKey kw "schedule_type" = some v → valEqStr v "ical" = false →
      getKey out "schedule" = some (.dict [("type", v)]) ∧
      getKey out "schedule_type" = none) := by
  obtain ⟨-, hns⟩ := alert_creator_ok h
  obtain ⟨kw4, kw5, hP, hT, hS⟩ := normSteps_ok_decomp hns
  have e1 : getKey kw5 "schedule_type" = getKey kw "schedule_type" := by
    rw [stepTrigger_frame hT (by decide) (by decide) (by decide) (by decide),
      preTrigger_frame hP (by decide) (by decide) (by decide) (by decide)]
  have e2 : getKey kw5 "schedule_start" = getKey kw "schedule_start" := by
    rw [stepTrigger_frame hT (by decide) (by decide) (by decide) (by decide),
      preTrigger_frame hP (by decide) (by decide) (by decide) (by decide)]
  have e3 : getKey kw5 "schedule_repeat" = getKey kw "schedule_repeat" := by
    rw [stepTrigger_frame hT (by decide) (by decide) (by decide) (by decide),
      preTrigger_frame hP (by decide) (by decide) (by decide) (by decide)]
  constructor
  · intro s r hty hs hr
    exact stepSchedule_ical (e1.trans hty) (e2.trans hs) (e3.trans hr) hS
  · intro v hty hical
    exact stepSchedule_generic_ok (e1.trans hty) hical hS

theorem C4_witness :
    (_alert_creator qb0 [] [("schedule_type", PyVal.str "ical"),
        ("schedule_start", PyVal.str "20240101T000000Z"),
        ("schedule_repeat", PyVal.str "FREQ=DAILY")]).1 =
      .ok [("schedule", PyVal.dict [("type", PyVal.str "ical"),
        ("start", PyVal.str "20240101T000000Z"), ("repeatRule", PyVal.str "FREQ=DAILY")])] ∧
    getKey [("schedule", PyVal.dict [("type", PyVal.str "ical"),
        ("start", PyVal.str "20240101T000000Z"), ("repeatRule", PyVal.str "FREQ=DAILY")])]
      "schedule" =
      some (PyVal.dict [("type", PyVal.str "ical"),
        ("start", PyVal.str "20240101T000000Z"), ("repeatRule", PyVal.str "FREQ=DAILY")]) :=
  ⟨rfl,
    ((C4_schedule_output
      (show (_alert_creator qb0 [] [("schedule_type", PyVal.str "ical"),
          ("schedule_start", PyVal.str "20240101T000000Z"),
          ("schedule_repeat", PyVal.str "FREQ=DAILY")]).1 =
        .ok [("schedule", PyVal.dict [("type", PyVal.str "ical"),
          ("start", PyVal.str "20240101T000000Z"),
          ("repeatRule", PyVal.str "FREQ=DAILY")])] from rfl)).1
      (PyVal.str "20240101T000000Z") (PyVal.str "FREQ=DAILY") rfl rfl rfl).1⟩

/-- C5: on every successful normalization with `always_exec_on_trigger`
present, the supplied value was a boolean (the pass validates it as
such); `True` is rendered under the wire key `executeOnEveryTrigger` as
the lower-case text `"true"`, `False` as `"false"`, and the original key
is absent from the output. -/
theorem C5_always_exec {qb : List PyVal → Options → PyVal} {filters : List PyVal}
    {kw out : Options} {v : PyVal}
    (h : (_alert_creator qb filters kw).1 = .ok out)
    (hq : getKey kw "always_exec_on_trigger" = some v) :
    typeOf v = .bool ∧
    getKey out "always_exec_on_trigger" = none ∧
    (v = .bool true → getKey out "executeOnEveryTrigger" = some (.str "true")) ∧
    (v = .bool false → getKey out "executeOnEveryTrigger" = some (.str "false")) := by
  obtain ⟨-, hns⟩ := alert_creator_ok h
  obtain ⟨kw4, kw5, hP, hT, hS⟩ := normSteps_ok_decomp hns
  obtain ⟨kw1, kw2, hA, hB, -, hC⟩ := preTrigger_ok_decomp hP
  have hq2 : getKey kw2 "always_exec_on_trigger" = some v := by
    rw [stepDescription_frame hB (by decide), stepName_frame hA (by decide)]
    exact hq
  obtain ⟨b, hv, h1, h2⟩ := stepAlwaysExec_ok hC hq2
  have t1 : getKey out "always_exec_on_trigger" = getKey kw4 "always_exec_on_trigger" := by
    rw [stepSchedule_frame hS (by decide) (by decide) (by decide) (by decide),
      stepTrigger_frame hT (by decide) (by decide) (by decide) (by decide)]
  have t2 : getKey out "executeOnEveryTrigger" = getKey kw4 "executeOnEveryTrigger" := by
    rw [stepSchedule_frame hS (by decide) (by decide) (by decide) (by decide),
      stepTrigger_frame hT (by decide) (by decide) (by decide) (by decide)]
  refine ⟨by rw [hv]; rfl, by rw [t1]; exact h1, ?_, ?_⟩
  · intro hvt
    have hb : b = true := by
      cases hv.symm.trans hvt
      rfl
    rw [t2, h2, hb]
    rfl
  · intro hvf
    have hb : b = false := by
      cases hv.symm.trans hvf
      rfl
    rw [t2, h2, hb]
    rfl

theorem C5_witness :
    (_alert_creator qb0 [] [("always_exec_on_trigger", PyVal.bool true)]).1 =
      .ok [("executeOnEveryTrigger", PyVal.str "true")] ∧
    getKey [("executeOnEveryTrigger", PyVal.str "true")] "executeOnEveryTrigger" =
      some (PyVal.str "true") :=
  ⟨rfl,
    ((C5_always_exec
      (show (_alert_creator qb0 [] [("always_exec_on_trigger", PyVal.bool true)]).1 =
        .ok [("executeOnEveryTrigger", PyVal.str "true")] from rfl) rfl).2.2.1 rfl)⟩

/-- C7: every id-taking operation validates the id as an integer while
the request path is interpolated, so a non-integer id yields the
ValidationError for the `id` field and no request is ever produced for
the transport collaborator; for `update` the payload normalization runs
first (line 319), so that part is conditioned on it succeeding. -/
theorem C7_id_validation {idv : PyVal} (h : typeOf idv ≠ .int) :
    AlertAPI.delete idv = .error (.validationError "id" idv none) ∧
    AlertAPI.details idv none = .error (.validationError "id" idv none) ∧
    AlertAPI.execute idv = .error (.validationError "id" idv none) ∧
    (∀ qb kw p, (_alert_creator qb [] kw).1 = .ok p →
      AlertAPI.update qb idv [] kw = .error (.validationError "id" idv none)) := by
  have hc := @check_type_error "id" idv .int none h
  refine ⟨?_, ?_, ?_, ?_⟩
  · simp only [AlertAPI.delete, hc, bindErr]
  · simp only [AlertAPI.details, fieldsParams, bindOk, hc, bindErr]
  · simp only [AlertAPI.execute, hc, bindErr]
  · intro qb kw p hp
    simp only [AlertAPI.update, hp, bindOk, hc, bindErr]

theorem C7_witness :
    typeOf (PyVal.str "one") ≠ PyType.int ∧
    AlertAPI.delete (PyVal.str "one") =
      .error (.validationError "id" (PyVal.str "one") none) :=
  ⟨by decide, (C7_id_validation (by decide)).1⟩

/-- C8: listing with a non-empty list of textual fields (each passing the
text check) sends the collection GET request whose `fields` parameter is
the comma-joined field names, and returns the `response` member of the
decoded JSON reply produced by the transport collaborator. -/
theorem C8_list_fields {names : List String} (hne : names ≠ [])
    (transport : Request → PyVal) :
    AlertAPI.list transport (some (names.map PyVal.str)) =
      getItem (transport ⟨"GET", "alert",
        [("fields", .str (String.intercalate "," names))], none⟩) "response" := by
  have hmap : ∀ ns : List String,
      (ns.map PyVal.str).mapM (fun f => _check "field" f .str none) =
        .ok (ns.map PyVal.str) := by
    intro ns
    induction ns with
    | nil => rfl
    | cons a t ih =>
      rw [List.map_cons, List.mapM_cons,
        show _check "field" (PyVal.str a) .str none = .ok (.str a) from check_pass rfl,
        bindOk, ih, bindOk]
      rfl
  cases names with
  | nil => exact absurd rfl hne
  | cons a t =>
    have h2 := hmap (a :: t)
    rw [List.map_cons] at h2
    have hasv : (List.map PyVal.str t).map asStr = t := by
      rw [List.map_map]
      have hcomp : (asStr ∘ PyVal.str) = id := funext fun s => rfl
      rw [hcomp, List.map_id]
    simp only [AlertAPI.list, List.map_cons, fieldsParams, List.isEmpty_cons,
      Bool.false_eq_true, if_false, h2, mapOk, bindOk]
    simp only [asStr, hasv]

theorem C8_witness :
    (["id", "name"] : List String) ≠ [] ∧
    AlertAPI.list transport0 (some (["id", "name"].map PyVal.str)) =
      getItem (transport0 ⟨"GET", "alert",
        [("fields", .str (String.intercalate "," ["id", "name"]))], none⟩) "response" :=
  ⟨by decide, C8_list_fields (by decide) transport0⟩

/-- C9 (counterexample): the claim says every key outside the recognized
option set — which does not include `executeOnEveryTrigger` — is left
unchanged with its value in the output.  But `executeOnEveryTrigger` is
the wire key the `always_exec_on_trigger` pass writes: supplied together
with `always_exec_on_trigger=True`, its value `'x'` is overwritten with
`'true'` in the output, not left unchanged. -/
theorem C9_counterexample :
    getKey [("always_exec_on_trigger", PyVal.bool true), ("executeOnEveryTrigger", PyVal.str "x")]
      "executeOnEveryTrigger" = some (PyVal.str "x") ∧
    (_alert_creator qb0 []
        [("always_exec_on_trigger", PyVal.bool true),
         ("executeOnEveryTrigger", PyVal.str "x")]).1 =
      .ok [("executeOnEveryTrigger", PyVal.str "true")] :=
  ⟨rfl, rfl⟩

/-- C9 (amended): every key outside the recognized option set AND outside
the wire keys the normalizer writes (`analysis_type`,
`executeOnEveryTrigger`, `triggerName`, `triggerOperator`,
`triggerValue`, `schedule`) — together `normalizerKeys` — is passed
through a successful normalization unchanged, with no validation
performed on its value. -/
theorem C9_passthrough {qb : List PyVal → Options → PyVal} {filters : List PyVal}
    {kw out : Options} {k : String}
    (h : (_alert_creator qb filters kw).1 = .ok out) (hk : k ∉ normalizerKeys) :
    getKey out k = getKey kw k := by
  obtain ⟨-, hns⟩ := alert_creator_ok h
  exact normSteps_frame hns
    (fun e => hk (by rw [e]; decide)) (fun e => hk (by rw [e]; decide))
    (fun e => hk (by rw [e]; decide)) (fun e => hk (by rw [e]; decide))
    (fun e => hk (by rw [e]; decide)) (fun e => hk (by rw [e]; decide))
    (fun e => hk (by rw [e]; decide)) (fun e => hk (by rw [e]; decide))
    (fun e => hk (by rw [e]; decide)) (fun e => hk (by rw [e]; decide))
    (fun e => hk (by rw [e]; decide)) (fun e => hk (by rw [e]; decide))

theorem C9_witness :
    (_alert_creator qb0 [] [("name", PyVal.str "x"), ("action", PyVal.list [])]).1 =
      .ok [("name", PyVal.str "x"), ("action", PyVal.list [])] ∧
    "action" ∉ normalizerKeys ∧
    getKey [("name", PyVal.str "x"), ("action", PyVal.list [])] "action" =
      getKey [("name", PyVal.str "x"), ("action", PyVal.list [])] "action" :=
  ⟨rfl, by decide,
    C9_passthrough
      (show (_alert_creator qb0 [] [("name", PyVal.str "x"), ("action", PyVal.list [])]).1 =
        .ok [("name", PyVal.str "x"), ("action", PyVal.list [])] from rfl)
      (by decide)⟩

/-- C10 (counterexample): the claim says any trigger tuple with more than
three elements whose first three are text normalizes successfully.  The
tuple `('a', 'b', 'c', 'd')` has four textual elements, yet normalization
fails: its second element `'b'` is not in the operator choice set, so the
`triggerOperator` check raises a ValidationError. -/
theorem C10_counterexample :
    (_alert_creator qb0 []
        [("trigger", PyVal.tuple
          [PyVal.str "a", PyVal.str "b", PyVal.str "c", PyVal.str "d"])]).1 =
      .error (.validationError "triggerOperator" (PyVal.str "b") (some triggerOps)) :=
  rfl

/-- C10 (amended): for a trigger tuple with more than three elements whose
first three are text and whose second is one of the four allowed
operators, when the passes before the trigger pass succeed and no
`schedule_type` key is present, normalization succeeds: the first three
elements land in `triggerName`/`triggerOperator`/`triggerValue`, the
`trigger` key is removed, and the elements beyond index 2 are never
read. -/
theorem C10_extra_elements {qb : List PyVal → Options → PyVal} {kw kw4 : Options}
    {n o v : String} {extra : List PyVal}
    (hP : preTrigger kw = .ok kw4)
    (hq : getKey kw "trigger" = some (.tuple (.str n :: .str o :: .str v :: extra)))
    (ho : o ∈ triggerOps)
    (hst : getKey kw "schedule_type" = none) :
    ∃ out, (_alert_creator qb [] kw).1 = .ok out ∧
      getKey out "triggerName" = some (.str n) ∧
      getKey out "triggerOperator" = some (.str o) ∧
      getKey out "triggerValue" = some (.str v) ∧
      getKey out "trigger" = none := by
  have hq4 : getKey kw4 "trigger" = some (.tuple (.str n :: .str o :: .str v :: extra)) :=
    (preTrigger_frame hP (by decide) (by decide) (by decide) (by decide)).trans hq
  have hT := stepTrigger_full hq4 ho
  have hst5 : getKey (delKey (setKey (setKey (setKey kw4 "triggerName" (.str n))
      "triggerOperator" (.str o)) "triggerValue" (.str v)) "trigger") "schedule_type" = none := by
    rw [getKey_delKey_ne _ (by decide), getKey_setKey_ne _ _ (by decide),
      getKey_setKey_ne _ _ (by decide), getKey_setKey_ne _ _ (by decide),
      preTrigger_frame hP (by decide) (by decide) (by decide) (by decide)]
    exact hst
  have hS : stepSchedule (delKey (setKey (setKey (setKey kw4 "triggerName" (.str n))
      "triggerOperator" (.str o)) "triggerValue" (.str v)) "trigger") =
      .ok (delKey (setKey (setKey (setKey kw4 "triggerName" (.str n))
        "triggerOperator" (.str o)) "triggerValue" (.str v)) "trigger") := by
    simp only [stepSchedule, hst5]
  refine ⟨delKey (setKey (setKey (setKey kw4 "triggerName" (.str n))
    "triggerOperator" (.str o)) "triggerValue" (.str v)) "trigger", ?_, ?_, ?_, ?_, ?_⟩
  · rw [alert_creator_nil]
    show normSteps kw = _
    unfold normSteps
    rw [hP, bindOk, hT, bindOk, hS]
  · rw [getKey_delKey_ne _ (by decide), getKey_setKey_ne _ _ (by decide),
      getKey_setKey_ne _ _ (by decide), getKey_setKey_self]
  · rw [getKey_delKey_ne _ (by decide), getKey_setKey_ne _ _ (by decide),
      getKey_setKey_self]
  · rw [getKey_delKey_ne _ (by decide), getKey_setKey_self]
  · rw [getKey_delKey_self]

theorem C10_witness :
    (_alert_creator qb0 []
        [("trigger", PyVal.tuple
          [PyVal.str "sumip", PyVal.str ">=", PyVal.str "100", PyVal.int 9])]).1 =
      .ok [("triggerName", PyVal.str "sumip"), ("triggerOperator", PyVal.str ">="),
        ("triggerValue", PyVal.str "100")] ∧
    getKey [("triggerName", PyVal.str "sumip"), ("triggerOperator", PyVal.str ">="),
      ("triggerValue", PyVal.str "100")] "trigger" = none := by
  obtain ⟨out, h1, h2, h3, h4, h5⟩ :=
    @C10_extra_elements qb0
      [("trigger", PyVal.tuple
        [PyVal.str "sumip", PyVal.str ">=", PyVal.str "100", PyVal.int 9])]
      [("trigger", PyVal.tuple
        [PyVal.str "sumip", PyVal.str ">=", PyVal.str "100", PyVal.int 9])]
      "sumip" ">=" "100" [PyVal.int 9] rfl rfl (by decide) rfl
  have heq : out = [("triggerName", PyVal.str "sumip"), ("triggerOperator", PyVal.str ">="),
      ("triggerValue", PyVal.str "100")] :=
    Except.ok.inj (h1.symm.trans rfl)
  subst heq
  exact ⟨h1, h5⟩

/-- C3 (counterexample): the claim quantifies over every normalizer call
with `schedule_type = 'ical'` and a missing `schedule_start` or
`schedule_repeat`, asserting a ValidationError.  A call that also
carries a `query` key never reaches the schedule branch: the `query`
pass crashes first with `NameError` (the line-53 assignment to the
undefined name `doc`), so no ValidationError is raised there. -/
theorem C3_counterexample :
    (_alert_creator qb0 []
        [("query", PyVal.dict []), ("schedule_type", PyVal.str "ical")]).1 =
      .error (.nameError "doc") :=
  rfl
